import Mathlib

set_option linter.unusedVariables false

/-!
Verification of the agentic research pipeline (engeybot).

This file is a shallow embedding, in Lean 4, of the core of the repository:
the pydantic data model (`src/agentic/models.py`), the research engine
(`src/agentic/researcher.py`), the synthesis engine
(`src/agentic/synthesizer.py`), the query decomposer
(`src/agentic/decomposer.py`), the clarification-response path of the
orchestrator (`src/agentic/handler.py`), the status lifecycle manager
(`src/agentic/status_manager.py`) and the Mongo persistence layer
(`src/agentic/mongo_store.py`).

Modelling conventions:
- Calls to the external Gemini model / search backend are modelled by
  explicit parameters: a function `Nat → AttemptOutcome` giving the outcome
  of each successive backend call, or the already-parsed structured output
  for the single-call engines.
- Python exceptions are modelled with `Except` / `Option`; functions that
  can never raise are total.
- Python `str` is modelled by Lean `String` (sequences of unicode scalar
  values, matching Python's sequences of code points); `str.strip()` is
  modelled character-wise by `pyStrip`, `str.split("\n")` by
  `String.splitOn "\n"`, and the ASCII behaviour of `str.isdigit()` +
  `int(...)` by `pyBareInt`.
- Side effects on the chat transport and the task scheduler are reified as
  lists of operations (`SendOp`), so that "exactly one deletion task is
  scheduled" becomes a statement about the operation list.
-/

namespace Engeybot

/-! ## Data model (src/agentic/models.py) -/

/-- `SourceInfo` from `models.py`: source citation with display title and URL. -/
structure SourceInfo where
  title : String
  url : String
deriving DecidableEq, Repr

/-- `SourceInfo.to_html` from `models.py`. -/
def SourceInfo.to_html (s : SourceInfo) : String :=
  "<a href=\"" ++ s.url ++ "\">" ++ s.title ++ "</a>"

/-- `SubQuery` from `models.py`. -/
structure SubQuery where
  id : String
  query_text : String
  aspect : String
deriving DecidableEq, Repr

/-- `ResearchResult` from `models.py`. -/
structure ResearchResult where
  sub_query_id : String
  response_text : String
  sources : List SourceInfo
  success : Bool
  error_message : Option String
deriving DecidableEq, Repr

/-- `FollowUpQuestion` from `models.py`. -/
structure FollowUpQuestion where
  question : String
  topic : String
deriving DecidableEq, Repr

/-- `SynthesizedResponse` from `models.py`. -/
structure SynthesizedResponse where
  response_text : String
  sources : List SourceInfo
  sections : List String
  follow_up_questions : List FollowUpQuestion
deriving DecidableEq, Repr

/-- `ProcessingStage` from `models.py`: closed enumeration of pipeline stages. -/
inductive ProcessingStage where
  | THINKING
  | AWAITING_CLARIFICATION
  | DECOMPOSING
  | RESEARCHING
  | SYNTHESIZING
  | COMPLETE
  | FAILED
deriving DecidableEq, Repr

/-! ## Research engine (src/agentic/researcher.py) -/

/-- Outcome of one call to `client.models.generate_content` inside the
research loop: either the call raises an exception with message `msg`, or it
returns a response whose `.text` is `text` (`none` models Python `None`)
and whose extracted grounding sources are `sources` (the result of
`_extract_sources`, which never raises). -/
inductive AttemptOutcome where
  | raises (msg : String)
  | ok (text : Option String) (sources : List SourceInfo)
deriving DecidableEq, Repr

/-- Whether a backend call returned normally. -/
def AttemptOutcome.isOk : AttemptOutcome → Bool
  | .ok _ _ => true
  | .raises _ => false

/-- Python `str.strip()` with no argument: leading and trailing
whitespace removed, modelled character-wise. -/
def pyStrip (s : String) : String :=
  String.mk (((s.data.dropWhile Char.isWhitespace).reverse.dropWhile
    Char.isWhitespace).reverse)

/-- Python `s.isdigit()` followed by `int(s)` (ASCII): `some k` iff `s` is
non-empty and all decimal digits, in which case `k` is its value. -/
def pyBareInt (s : String) : Option Nat :=
  if s.data ≠ [] ∧ s.data.all Char.isDigit then
    some (s.data.foldl (fun n c => n * 10 + (c.toNat - 48)) 0)
  else none

/-- Python `response.text.strip() if response.text else ""`: the empty
string and `None` are falsy, everything else is stripped. -/
def stripText : Option String → String
  | none => ""
  | some s => if s = "" then "" else pyStrip s

/-- Python `f"...{last_error}"` on an `Optional[str]`: `None` prints as
`"None"`. -/
def pyOptStr : Option String → String
  | none => "None"
  | some s => s

/-- The retry loop of `ResearchEngine.research_query` (researcher.py lines
50-85), run over the list of outcomes of the successive backend calls
(the Python `while attempts <= max_retries` loop consumes at most
`max_retries + 1` outcomes, which is exactly the list
`(List.range (maxRetries+1)).map backend`). On the first outcome that
returns normally it builds the success result; when the list is exhausted
it builds the failure result from the last exception message. -/
def researchGo (sqId : String) (maxRetries : Nat) :
    List AttemptOutcome → Option String → ResearchResult
  | [], lastError =>
      { sub_query_id := sqId
        response_text := ""
        sources := []
        success := false
        error_message := some ("Research failed after " ++ toString (maxRetries + 1)
          ++ " attempts: " ++ pyOptStr lastError) }
  | o :: rest, _lastError =>
      match o with
      | .ok text sources =>
          { sub_query_id := sqId
            response_text := stripText text
            sources := sources
            success := true
            error_message := none }
      | .raises msg => researchGo sqId maxRetries rest (some msg)

/-- `ResearchEngine.research_query` (researcher.py lines 33-85): execute a
single grounded search with retry. `backend i` is the outcome of the
`i`-th call to `generate_content`. -/
def research_query (backend : Nat → AttemptOutcome) (sub_query : SubQuery)
    (max_retries : Nat) : ResearchResult :=
  researchGo sub_query.id max_retries ((List.range (max_retries + 1)).map backend) none

/-- Number of backend calls consumed by the retry loop of `research_query`
(one per iteration of the Python `while` loop; the loop stops at the first
outcome that returns normally). -/
def researchCallsGo : List AttemptOutcome → Nat
  | [] => 0
  | .ok _ _ :: _ => 1
  | .raises _ :: rest => 1 + researchCallsGo rest

/-- Number of attempts `research_query` makes against the backend. -/
def researchCalls (backend : Nat → AttemptOutcome) (max_retries : Nat) : Nat :=
  researchCallsGo ((List.range (max_retries + 1)).map backend)

/-! ### research_all (researcher.py lines 202-241) -/

/-- `ResearchEngine.research_all`: research all sub-queries in parallel.
`backends i` is the backend behaviour seen by the research of the `i`-th
sub-query (`research_query` is called with its default `max_retries = 1`).

The Python code first builds `ThreadPoolExecutor(max_workers=min(total, 5))`;
the executor constructor raises `ValueError("max_workers must be greater
than 0")` when `min(total, 5) ≤ 0`, i.e. exactly when the input list is
empty, so that case is an error.  Otherwise `executor.map` yields the
`(idx, result)` pairs in input order, the pre-allocated `results` list is
filled by index, and the sequential fan-in loop invokes `on_progress` with
`completed = 1, 2, …, total` and `total` fixed.  The returned pair is
(results, list of `(current, total)` arguments of the successive
`on_progress` invocations). -/
def research_all (backends : Nat → Nat → AttemptOutcome) (sub_queries : List SubQuery) :
    Except String (List ResearchResult × List (Nat × Nat)) :=
  let total := sub_queries.length
  if total.min 5 = 0 then
    .error "max_workers must be greater than 0"
  else
    .ok (sub_queries.mapIdx (fun i sq => research_query (backends i) sq 1),
         (List.range total).map (fun i => (i + 1, total)))

/-! ## Synthesis engine (src/agentic/synthesizer.py) -/

/-- `SynthesisOutput` from `synthesizer.py`: the schema-validated structured
output of the external synthesis model. -/
structure SynthesisOutput where
  response_text : String
  sections : List String
deriving DecidableEq, Repr

/-- The nested loop of `SynthesisEngine._deduplicate_sources`
(synthesizer.py lines 143-152), iterating over all sources of all results
(here already flattened into one list, which preserves the iteration
order) while threading the `seen_urls` set: a source is kept iff its url
is truthy (non-empty) and not seen yet. -/
def dedupAux (seen : List String) : List SourceInfo → List SourceInfo
  | [] => []
  | s :: rest =>
    if s.url ≠ "" ∧ s.url ∉ seen then s :: dedupAux (s.url :: seen) rest
    else dedupAux seen rest

/-- `SynthesisEngine._deduplicate_sources` (synthesizer.py lines 134-152). -/
def deduplicate_sources (results : List ResearchResult) : List SourceInfo :=
  dedupAux [] (results.map ResearchResult.sources).flatten

/-- Modelled from the spec's words, for the refinement comparison of C3:
"the union, de-duplicated by URL in first-seen order, of every input
result's citations" — first-seen-order dedup by exact URL with no further
filtering. -/
def dedupByUrlSpec (seen : List String) : List SourceInfo → List SourceInfo
  | [] => []
  | s :: rest =>
    if s.url ∉ seen then s :: dedupByUrlSpec (s.url :: seen) rest
    else dedupByUrlSpec seen rest

/-- The citation set the spec describes: dedup of the concatenation of all
input results' sources. -/
def specCitations (results : List ResearchResult) : List SourceInfo :=
  dedupByUrlSpec [] (results.map ResearchResult.sources).flatten

/-- A research result contributes text to the synthesis findings transcript
iff `_format_research_findings` includes it (synthesizer.py line 124):
`result.success and result.response_text`. -/
def contributes (r : ResearchResult) : Bool :=
  r.success && !(r.response_text == "")

/-- Number of research results that contributed text. -/
def contributingCount (results : List ResearchResult) : Nat :=
  (results.filter contributes).length

/-- `SynthesisEngine.synthesize` (synthesizer.py lines 49-98).  The
external model call (prompt built from `original_question`, `sub_queries`
and the findings transcript) is modelled by `genOutput`, the
schema-validated structured output it returns.  The returned response
takes its text and sections from the model output, its sources from
`_deduplicate_sources`, and empty follow-up questions. -/
def synthesize (genOutput : SynthesisOutput) (original_question : String)
    (sub_queries : List SubQuery) (results : List ResearchResult) : SynthesizedResponse :=
  { response_text := genOutput.response_text
    sources := deduplicate_sources results
    sections := genOutput.sections
    follow_up_questions := [] }

/-! ## Query decomposer (src/agentic/decomposer.py) -/

/-- `SubQueryItem` from `decomposer.py`: one item of the structured output
(the schema has NO id field, so the generator never proposes ids). -/
structure SubQueryItem where
  query_text : String
  aspect : String
deriving DecidableEq, Repr

/-- `SubQueryList` from `decomposer.py`: the structured output schema for
decomposition.  Its `sub_queries` field carries pydantic bounds
`min_length=2, max_length=5`, enforced by `model_validate_json`. -/
structure SubQueryList where
  sub_queries : List SubQueryItem
  reasoning : String
deriving DecidableEq, Repr

/-- `QueryDecomposer.decompose` (decomposer.py lines 138-190).  The
external model call is modelled by `gen`, the payload it returns already
parsed into the `SubQueryList` shape; `SubQueryList.model_validate_json`
additionally enforces the schema bounds `min_length=2, max_length=5` on
`sub_queries` and raises a `ValidationError` outside them (modelled as
`.error`).  After validation the source pads to 2 items with
`SubQueryItem(query_text=question, aspect="General overview")` (the
`while` loop, here rendered as an append of the missing replicas) or
truncates to the first 5 — both branches unreachable after validation —
then maps each item to a `SubQuery` with the fresh id
`f"sq-{uuid.uuid4().hex[:8]}"`; `idGen i` models the uuid fragment drawn
for the `i`-th item. -/
def decompose (question : String) (idGen : Nat → String) (gen : SubQueryList) :
    Except String (List SubQuery) :=
  if gen.sub_queries.length < 2 ∨ 5 < gen.sub_queries.length then
    .error "ValidationError: sub_queries"
  else
    let sub_queries :=
      if gen.sub_queries.length < 2 then
        gen.sub_queries
          ++ List.replicate (2 - gen.sub_queries.length) ⟨question, "General overview"⟩
      else if 5 < gen.sub_queries.length then
        gen.sub_queries.take 5
      else gen.sub_queries
    .ok (sub_queries.mapIdx (fun i it =>
      { id := "sq-" ++ idGen i, query_text := it.query_text, aspect := it.aspect }))

/-! ## Conversation state (src/agentic/models.py) -/

/-- A Python naive `datetime` value.  In Python these satisfy
`1 ≤ year ≤ 9999`, `1 ≤ month ≤ 12`, `1 ≤ day ≤ 31`, `hour < 24`,
`minute < 60`, `second < 60`, `microsecond < 1000000`; the Lean structure
is looser, so theorems that need them take the (weaker, width-only)
bounds as hypotheses. -/
structure DateTime where
  year : Nat
  month : Nat
  day : Nat
  hour : Nat
  minute : Nat
  second : Nat
  microsecond : Nat
deriving DecidableEq, Repr

/-- `ConversationState` from `models.py`: the aggregate root of one
agentic conversation. -/
structure ConversationState where
  id : String
  user_id : Int
  chat_id : Int
  message_id : Int
  status_message_id : Option Int
  original_question : String
  clarification_context : List String
  pending_clarification : Option String
  pending_options : List String
  stage : ProcessingStage
  sub_queries : List SubQuery
  research_results : List ResearchResult
  final_response : Option SynthesizedResponse
  created_at : DateTime
  completed_at : Option DateTime
  error_message : Option String
deriving DecidableEq, Repr

/-! ## Clarification-response path (src/agentic/handler.py lines 248-312) -/

/-- Operations `_handle_clarification_response` issues against its
collaborators (the Mongo store and the chat transport), in program
order. -/
inductive HandlerOp where
  | persistClear (conversation_id : String) (clarification_context : List String)
  | sendStatus (chat_id : Int) (reply_to : Int)
  | persistStatusId (conversation_id : String) (status_message_id : Option Int)
deriving DecidableEq, Repr

/-- Result of running the clarification-response path up to the
clarification re-check: the pending-clarification map after the handler's
first statement, the operations issued, and the conversation state handed
to the continuation (the re-check of `check_clarification_needed`
followed by `_continue_research`) — `none` when the handler returned
early. -/
structure ClarifyOutcome where
  pending_after : List (Int × String)
  ops : List HandlerOp
  next : Option ConversationState
deriving DecidableEq, Repr

/-- The option-substitution logic of `_handle_clarification_response`
(handler.py lines 271-276): if the conversation has pending options and
the trimmed reply parses as an integer (Python
`response.strip().isdigit()` then `int(...)`, modelled by `pyBareInt`)
within `1..len(options)`, the chosen option's value replaces the literal
reply. -/
def actual_response_of (state : ConversationState) (response : String) : String :=
  match pyBareInt (pyStrip response) with
  | some k =>
    if state.pending_options ≠ [] ∧ 1 ≤ k ∧ k ≤ state.pending_options.length then
      state.pending_options.getD (k - 1) response
    else response
  | none => response

/-- `AgenticHandler._handle_clarification_response` (handler.py lines
248-312), modelled up to the hand-off to the clarification re-check /
research continuation.  `pending` models the module-level
`_pending_clarifications` dict as an association list; `lookup` models the
result of `store.get_conversation(conversation_id)`; `sendResult` models
`status_manager.send_initial_status` (`some id` on success, `none` when
the send raises, in which case the persisted status id update does not
happen and `state.status_message_id` is left unchanged). -/
def handle_clarification_response (pending : List (Int × String)) (chat_id : Int)
    (conversation_id : String) (response : String) (message_id : Int)
    (lookup : Option ConversationState) (sendResult : Option Int) : ClarifyOutcome :=
  -- `del _pending_clarifications[chat_id]` — the very first statement
  let pending' := pending.filter (fun p => p.1 != chat_id)
  match lookup with
  | none => { pending_after := pending', ops := [], next := none }
  | some state =>
    let actual_response := actual_response_of state response
    let qa := "Q: " ++ pyOptStr state.pending_clarification ++ "\nA: " ++ actual_response
    let state₁ := { state with
      clarification_context := state.clarification_context ++ [qa]
      pending_clarification := none
      pending_options := [] }
    let ops₁ := [HandlerOp.persistClear conversation_id state₁.clarification_context]
    match sendResult with
    | some mid =>
      { pending_after := pending'
        ops := ops₁ ++ [.sendStatus chat_id message_id,
          .persistStatusId conversation_id (some mid)]
        next := some { state₁ with status_message_id := some mid } }
    | none =>
      { pending_after := pending'
        ops := ops₁ ++ [.sendStatus chat_id message_id]
        next := some state₁ }

/-! ## Status lifecycle manager (src/agentic/status_manager.py) -/

/-- Operations issued against the chat transport and the delayed-task
scheduler, in program order.  An `editMessage`/`sendMessage` op records
that the corresponding bot call was issued (a call that raises is still
recorded; whether it raised is modelled by the explicit `editOk`-style
parameters of the functions below). -/
inductive SendOp where
  | sendMessage (chat_id : Int) (text : String) (reply_to : Option Int)
      (parse_mode : Option String)
  | editMessage (chat_id : Int) (message_id : Int) (text : String)
      (parse_mode : Option String)
  | scheduleDeletion (chat_id : Int) (message_id : Int) (delay : Nat)
deriving DecidableEq, Repr

/-- `AUTO_DELETE_DURATION` from `status_manager.py`: 24 hours in seconds. -/
def AUTO_DELETE_DURATION : Nat := 86400

/-- `STAGE_MESSAGES` from `status_manager.py` (a dict covering every
stage). -/
def STAGE_MESSAGES : ProcessingStage → String
  | .THINKING => "ވިސްނަނީ..."
  | .AWAITING_CLARIFICATION => "ސާފުކުރަން ބޭނުން..."
  | .DECOMPOSING => "ސުވާލު ދިރާސާކުރަނީ..."
  | .RESEARCHING => "ހޯދަނީ"
  | .SYNTHESIZING => "ޖަވާބު ތައްޔާރުކުރަނީ..."
  | .COMPLETE => "ނިމިއްޖެ"
  | .FAILED => "މައްސަލައެއް ދިމާވެއްޖެ"

/-- `get_stage_message` from `status_manager.py`. -/
def get_stage_message (stage : ProcessingStage) (progress : String) : String :=
  if progress ≠ "" then STAGE_MESSAGES stage ++ " " ++ progress else STAGE_MESSAGES stage

/-- `StatusManager._schedule_deletion` (status_manager.py lines 73-81):
schedules the huey deletion task at `AUTO_DELETE_DURATION` seconds — but
ONLY if a huey instance was provided at construction (`self._delete_task`
is `None` otherwise and nothing is scheduled).  `hasDeleteTask` models
whether the manager was constructed with a huey instance. -/
def schedule_deletion (hasDeleteTask : Bool) (chat_id message_id : Int) : List SendOp :=
  if hasDeleteTask then [.scheduleDeletion chat_id message_id AUTO_DELETE_DURATION] else []

/-- `StatusManager.send_initial_status` (status_manager.py lines 83-100):
sends the Thinking message as a reply and schedules its deletion.
`newMsgId` models the `message_id` of the message the transport reports
back; the returned `Int` is the function's return value. -/
def send_initial_status (hasDeleteTask : Bool) (chat_id reply_to newMsgId : Int) :
    List SendOp × Int :=
  (.sendMessage chat_id (STAGE_MESSAGES .THINKING) (some reply_to) none
    :: schedule_deletion hasDeleteTask chat_id newMsgId,
   newMsgId)

/-- `StatusManager.update_status` (status_manager.py lines 102-132): edits
the status message in place (failures swallowed); no deletion is ever
scheduled here. -/
def update_status (chat_id message_id : Int) (stage : ProcessingStage)
    (progress : String) : List SendOp :=
  [.editMessage chat_id message_id (get_stage_message stage progress) none]

/-- `StatusManager.replace_with_response` (status_manager.py lines
134-167): tries to edit the status message in place (no new deletion
task: the original retention timer is preserved); if the edit raises
(`editOk = false`), sends a brand-new message and schedules its
deletion.  `newMsgId` models the id of the fallback message. -/
def replace_with_response (hasDeleteTask : Bool) (editOk : Bool) (newMsgId : Int)
    (chat_id message_id : Int) (response : String) (parse_mode : Option String) :
    List SendOp :=
  if editOk then
    [.editMessage chat_id message_id response parse_mode]
  else
    .editMessage chat_id message_id response parse_mode
      :: .sendMessage chat_id response none parse_mode
      :: schedule_deletion hasDeleteTask chat_id newMsgId

/-- `StatusManager.send_with_auto_delete` (status_manager.py lines
169-195). -/
def send_with_auto_delete (hasDeleteTask : Bool) (chat_id : Int) (text : String)
    (reply_to : Option Int) (parse_mode : Option String) (newMsgId : Int) :
    List SendOp × Int :=
  (.sendMessage chat_id text reply_to parse_mode
    :: schedule_deletion hasDeleteTask chat_id newMsgId,
   newMsgId)

/-- `format_sources_html` from `status_manager.py`. -/
def format_sources_html (sources : List SourceInfo) : String :=
  if sources = [] then ""
  else String.intercalate " | " (sources.map SourceInfo.to_html)

/-- The deletion tasks among a list of operations, as
`(chat_id, message_id, delay)` triples. -/
def deletionsOf (ops : List SendOp) : List (Int × Int × Nat) :=
  ops.filterMap (fun op => match op with
    | .scheduleDeletion c m d => some (c, m, d)
    | _ => none)

/-- The texts of the messages sent or edited by a list of operations. -/
def textsSent (ops : List SendOp) : List String :=
  ops.filterMap (fun op => match op with
    | .sendMessage _ t _ _ => some t
    | .editMessage _ _ t _ => some t
    | _ => none)

/-! ## Final-response delivery (src/agentic/handler.py lines 440-543) -/

/-- Python `line[i:i+max_length]` slicing loop of `_split_message`
(handler.py lines 463-465): cuts a long line into consecutive slices of
`maxLen` code points.  (For `maxLen = 0` Python's `range(0, len, 0)`
would raise; the branch is unreachable since `_split_message` is only
invoked with its default `max_length = 4096`.) -/
def sliceChunks : Nat → List Char → List (List Char)
  | _, [] => []
  | 0, _ :: _ => []
  | n + 1, c :: cs => ((c :: cs).take (n + 1)) :: sliceChunks (n + 1) ((c :: cs).drop (n + 1))
termination_by n l => l.length
decreasing_by
  simp only [List.length_drop, List.length_cons]
  omega

/-- The accumulation loop of `AgenticHandler._split_message` (handler.py
lines 453-471), over the lines of the text, threading `current_chunk` and
the `chunks` list. -/
def splitLoop (maxLen : Nat) : List String → String → List String → List String
  | [], current, chunks =>
      if current ≠ "" then chunks ++ [pyStrip current] else chunks
  | line :: rest, current, chunks =>
      if current.length + line.length + 1 ≤ maxLen then
        splitLoop maxLen rest (current ++ line ++ "\n") chunks
      else
        let chunks₁ := if current ≠ "" then chunks ++ [pyStrip current] else chunks
        if maxLen < line.length then
          splitLoop maxLen rest ""
            (chunks₁ ++ (sliceChunks maxLen line.data).map (fun l => String.mk l))
        else
          splitLoop maxLen rest (line ++ "\n") chunks₁

/-- `AgenticHandler._split_message` (handler.py lines 440-473): split a
long message into chunks fitting the transport limit.  NOTE: this helper
has no caller anywhere in the repository — delivery never splits. -/
def split_message (text : String) (max_length : Nat) : List String :=
  if text.length ≤ max_length then [text]
  else splitLoop max_length (text.splitOn "\n") "" []

/-- The text of the separate citations message of `_send_final_response`
(handler.py lines 492-495). -/
def sourcesText (sources : List SourceInfo) : String :=
  "މައުލޫމާތު: " ++ format_sources_html sources

/-- `AgenticHandler._send_final_response` (handler.py lines 475-543):
deliver the final answer.  The main text is sent WHOLE — by editing the
status message when there is one (falling back to a fresh send when the
edit raises, `editOk = false`), or by a fresh non-reply send otherwise —
and the citations, if any, go out as one separate HTML message.  The
fresh sends are modelled as succeeding (when they raise, the code only
logs; no further operation is issued). -/
def send_final_response (hasDeleteTask : Bool) (editOk : Bool) (newMsgId srcMsgId : Int)
    (chat_id : Int) (status_message_id : Option Int) (response : SynthesizedResponse) :
    List SendOp :=
  let text := response.response_text
  let sources_text := if response.sources ≠ [] then sourcesText response.sources else ""
  let mainOps :=
    match status_message_id with
    | some mid => replace_with_response hasDeleteTask editOk newMsgId chat_id mid text none
    | none => (send_with_auto_delete hasDeleteTask chat_id text none none newMsgId).1
  let srcOps :=
    if sources_text ≠ "" then
      (send_with_auto_delete hasDeleteTask chat_id sources_text none (some "HTML") srcMsgId).1
    else []
  mainOps ++ srcOps

/-! ## Mongo persistence (src/agentic/mongo_store.py) and the
pydantic json round-trip -/

/-- Zero-padded fixed-width decimal rendering of a natural number, as
Python `"%0{w}d"` produces for `n < 10^w` (the widths used by
`datetime.isoformat()`). -/
def padNat : Nat → Nat → List Char
  | 0, _ => []
  | w + 1, n => padNat w (n / 10) ++ [Nat.digitChar (n % 10)]

/-- Read a fixed-width decimal digit string. -/
def readDigits (cs : List Char) : Option Nat :=
  cs.foldl
    (fun acc c => acc.bind (fun n =>
      if c.isDigit then some (n * 10 + (c.toNat - 48)) else none))
    (some 0)

/-- `datetime.isoformat()` for a naive datetime, which is what pydantic's
`model_dump(mode="json")` emits: `YYYY-MM-DDTHH:MM:SS`, with `.ffffff`
appended exactly when the microsecond part is non-zero. -/
def isoString (dt : DateTime) : String :=
  String.mk (padNat 4 dt.year ++ ['-'] ++ padNat 2 dt.month ++ ['-'] ++ padNat 2 dt.day
    ++ ['T'] ++ padNat 2 dt.hour ++ [':'] ++ padNat 2 dt.minute ++ [':'] ++ padNat 2 dt.second
    ++ (if dt.microsecond = 0 then [] else ['.'] ++ padNat 6 dt.microsecond))

/-- Field assembly of the ISO-8601 parse: read the six fixed-width digit
groups and the optional `.ffffff` fractional tail. -/
def parseIsoFields (ly lmo ld lh lmi ls rest : List Char) : Option DateTime := do
  let y ← readDigits ly
  let mo ← readDigits lmo
  let d ← readDigits ld
  let h ← readDigits lh
  let mi ← readDigits lmi
  let s ← readDigits ls
  match rest with
  | [] => some ⟨y, mo, d, h, mi, s, 0⟩
  | '.' :: us =>
    if us.length = 6 then (readDigits us).map (fun u => ⟨y, mo, d, h, mi, s, u⟩)
    else none
  | _ => none

/-- Modelled from pydantic's datetime validation (third-party library, not
repository code), restricted to the strings `datetime.isoformat()`
produces: positional ISO-8601 parse of `YYYY-MM-DDTHH:MM:SS[.ffffff]`. -/
def parseIsoChars : List Char → Option DateTime
  | y1 :: y2 :: y3 :: y4 :: '-' :: m1 :: m2 :: '-' :: d1 :: d2 :: 'T' :: h1 :: h2
      :: ':' :: i1 :: i2 :: ':' :: s1 :: s2 :: rest =>
    parseIsoFields [y1, y2, y3, y4] [m1, m2] [d1, d2] [h1, h2] [i1, i2] [s1, s2] rest
  | _ => none

/-- Parse an ISO-8601 datetime string (see `parseIsoChars`). -/
def parseIso (s : String) : Option DateTime :=
  parseIsoChars s.data

/-- The `.value` of a `ProcessingStage` member (a `str` Enum), which is
what json-mode serialization emits. -/
def stageValue : ProcessingStage → String
  | .THINKING => "thinking"
  | .AWAITING_CLARIFICATION => "awaiting_clarification"
  | .DECOMPOSING => "decomposing"
  | .RESEARCHING => "researching"
  | .SYNTHESIZING => "synthesizing"
  | .COMPLETE => "complete"
  | .FAILED => "failed"

/-- Pydantic enum validation: a string is accepted iff it is the value of
some member. -/
def stageOfString (s : String) : Option ProcessingStage :=
  if s = "thinking" then some .THINKING
  else if s = "awaiting_clarification" then some .AWAITING_CLARIFICATION
  else if s = "decomposing" then some .DECOMPOSING
  else if s = "researching" then some .RESEARCHING
  else if s = "synthesizing" then some .SYNTHESIZING
  else if s = "complete" then some .COMPLETE
  else if s = "failed" then some .FAILED
  else none

/-- The document `ConversationState.model_dump(mode="json")` produces, as
stored in Mongo.  Json-mode dump maps `str`→string, `int`→number,
`bool`→bool, `None`→null and lists / nested models element-wise — those
keep their Lean form here — while the enum `stage` becomes its string
value and the `datetime` fields become ISO-8601 strings, captured by the
changed field types. -/
structure ConversationDoc where
  id : String
  user_id : Int
  chat_id : Int
  message_id : Int
  status_message_id : Option Int
  original_question : String
  clarification_context : List String
  pending_clarification : Option String
  pending_options : List String
  stage : String
  sub_queries : List SubQuery
  research_results : List ResearchResult
  final_response : Option SynthesizedResponse
  created_at : String
  completed_at : Option String
  error_message : Option String
deriving DecidableEq, Repr

/-- `state.model_dump(mode="json")` (mongo_store.py line 37). -/
def model_dump_json (state : ConversationState) : ConversationDoc :=
  { id := state.id
    user_id := state.user_id
    chat_id := state.chat_id
    message_id := state.message_id
    status_message_id := state.status_message_id
    original_question := state.original_question
    clarification_context := state.clarification_context
    pending_clarification := state.pending_clarification
    pending_options := state.pending_options
    stage := stageValue state.stage
    sub_queries := state.sub_queries
    research_results := state.research_results
    final_response := state.final_response
    created_at := isoString state.created_at
    completed_at := state.completed_at.map isoString
    error_message := state.error_message }

/-- `ConversationState.model_validate(doc)` (mongo_store.py line 69):
re-validate a stored document, parsing the enum and datetime fields;
`none` models a raised `ValidationError`. -/
def model_validate (doc : ConversationDoc) : Option ConversationState := do
  let stage ← stageOfString doc.stage
  let created ← parseIso doc.created_at
  let completed ← match doc.completed_at with
    | none => some none
    | some s => (parseIso s).map some
  some
    { id := doc.id
      user_id := doc.user_id
      chat_id := doc.chat_id
      message_id := doc.message_id
      status_message_id := doc.status_message_id
      original_question := doc.original_question
      clarification_context := doc.clarification_context
      pending_clarification := doc.pending_clarification
      pending_options := doc.pending_options
      stage := stage
      sub_queries := doc.sub_queries
      research_results := doc.research_results
      final_response := doc.final_response
      created_at := created
      completed_at := completed
      error_message := doc.error_message }

/-- `MongoStore.create_conversation` (mongo_store.py lines 27-39): dump
the state to a json document and insert it.  The collection is modelled
as the list of stored documents (insertion order); the driver's `_id`
bookkeeping is dropped, matching the `doc.pop("_id", None)` on read. -/
def create_conversation (store : List ConversationDoc) (state : ConversationState) :
    List ConversationDoc × String :=
  (store ++ [model_dump_json state], state.id)

/-- `MongoStore.get_conversation` (mongo_store.py lines 54-69): find the
first document with the given id and re-validate it (`.error` models a
`ValidationError` raised out of `model_validate`; `.ok none` models a
missing document). -/
def get_conversation (store : List ConversationDoc) (conversation_id : String) :
    Except String (Option ConversationState) :=
  match store.find? (fun d => d.id == conversation_id) with
  | none => .ok none
  | some d =>
    match model_validate d with
    | some st => .ok (some st)
    | none => .error "ValidationError"

/-- The invariants Python's `datetime` type itself guarantees (weakened to
the digit widths the ISO round-trip needs). -/
def DateTimeBounds (dt : DateTime) : Prop :=
  dt.year < 10000 ∧ dt.month < 100 ∧ dt.day < 100 ∧ dt.hour < 100 ∧
    dt.minute < 100 ∧ dt.second < 100 ∧ dt.microsecond < 1000000

instance : DecidablePred DateTimeBounds := fun dt => by
  unfold DateTimeBounds
  infer_instance

/-! ### Lemmas about the retry loop -/

theorem researchCallsGo_le_length (l : List AttemptOutcome) :
    researchCallsGo l ≤ l.length := by
  induction l with
  | nil => simp [researchCallsGo]
  | cons o rest ih =>
    cases o with
    | ok t s => simp [researchCallsGo]
    | raises m =>
      simp only [researchCallsGo, List.length_cons]
      omega

theorem researchGo_all_raises (sqId : String) (mr : Nat) (l : List AttemptOutcome)
    (e : Option String) (h : ∀ o ∈ l, o.isOk = false) :
    ∃ e', researchGo sqId mr l e =
      { sub_query_id := sqId, response_text := "", sources := [], success := false,
        error_message := some ("Research failed after " ++ toString (mr + 1)
          ++ " attempts: " ++ pyOptStr e') } := by
  induction l generalizing e with
  | nil => exact ⟨e, rfl⟩
  | cons o rest ih =>
    cases o with
    | ok t s =>
      have := h (.ok t s) (List.mem_cons_self _ _)
      simp [AttemptOutcome.isOk] at this
    | raises m =>
      have hrest : ∀ o ∈ rest, o.isOk = false := fun o ho => h o (List.mem_cons_of_mem _ ho)
      simpa [researchGo] using ih (some m) hrest

theorem researchGo_first_ok (sqId : String) (mr : Nat) (l₁ l₂ : List AttemptOutcome)
    (t : Option String) (s : List SourceInfo) (e : Option String)
    (h : ∀ o ∈ l₁, o.isOk = false) :
    researchGo sqId mr (l₁ ++ (.ok t s) :: l₂) e =
      { sub_query_id := sqId, response_text := stripText t, sources := s,
        success := true, error_message := none } := by
  induction l₁ generalizing e with
  | nil => rfl
  | cons o rest ih =>
    cases o with
    | ok t' s' =>
      have := h (.ok t' s') (List.mem_cons_self _ _)
      simp [AttemptOutcome.isOk] at this
    | raises m =>
      have hrest : ∀ o ∈ rest, o.isOk = false := fun o ho => h o (List.mem_cons_of_mem _ ho)
      simpa [researchGo] using ih (some m) hrest

theorem researchGo_success_iff (sqId : String) (mr : Nat) (l : List AttemptOutcome)
    (e : Option String) :
    (researchGo sqId mr l e).success = true ↔ ∃ o ∈ l, o.isOk = true := by
  induction l generalizing e with
  | nil => simp [researchGo]
  | cons o rest ih =>
    cases o with
    | ok t s => simp [researchGo, AttemptOutcome.isOk]
    | raises m =>
      simp [researchGo, AttemptOutcome.isOk, ih]

/-- The literal failure-message prefix is non-empty, hence so is the whole
failure message. -/
theorem failure_message_ne_empty (mr : Nat) (e : Option String) :
    ("Research failed after " ++ toString (mr + 1) ++ " attempts: " ++ pyOptStr e) ≠ "" := by
  intro h
  have hlen := congrArg String.length h
  simp only [String.length_append] at hlen
  have h1 : ("Research failed after " : String).length = 22 := by decide
  have h2 : ("" : String).length = 0 := rfl
  omega

theorem researchGo_sub_query_id (sqId : String) (mr : Nat) (l : List AttemptOutcome)
    (e : Option String) : (researchGo sqId mr l e).sub_query_id = sqId := by
  induction l generalizing e with
  | nil => rfl
  | cons o rest ih => cases o with
    | ok t s => rfl
    | raises m => simpa [researchGo] using ih (some m)

theorem range_map_decomp (backend : Nat → AttemptOutcome) (i mr : Nat) (hi : i ≤ mr) :
    ∃ l₂, (List.range (mr + 1)).map backend
      = (List.range i).map backend ++ backend i :: l₂ := by
  have h1 : mr + 1 = i + (mr - i + 1) := by omega
  refine ⟨(((List.range (mr - i)).map Nat.succ).map (fun x => i + x)).map backend, ?_⟩
  rw [h1, List.range_add, List.map_append, List.range_succ_eq_map]
  simp

/-! ### C1 -/

/-- C1 (amended): for every backend behaviour, sub-query and
`max_retries ≥ 0`, `research_query` makes at most `max_retries + 1`
attempts against the backend and (being a total function) never raises to
its caller; if some attempt returns normally, the result of the first such
attempt is returned with `success = true` and `response_text` equal to the
stripped response text — which may be EMPTY when the backend's response
text is empty or `None`; if all `max_retries + 1` attempts raise, the
result has `success = false`, `response_text = ""` and a non-empty
`error_message`. -/
theorem research_query_retry_spec (backend : Nat → AttemptOutcome) (sq : SubQuery)
    (mr : Nat) :
    researchCalls backend mr ≤ mr + 1 ∧
    (research_query backend sq mr).sub_query_id = sq.id ∧
    ((research_query backend sq mr).success = true ↔
      ∃ i, i ≤ mr ∧ (backend i).isOk = true) ∧
    (∀ i t s, i ≤ mr → (∀ j, j < i → (backend j).isOk = false) → backend i = .ok t s →
      research_query backend sq mr =
        { sub_query_id := sq.id, response_text := stripText t, sources := s,
          success := true, error_message := none }) ∧
    ((∀ i, i ≤ mr → (backend i).isOk = false) →
      (research_query backend sq mr).success = false ∧
      (research_query backend sq mr).response_text = "" ∧
      ∃ m, (research_query backend sq mr).error_message = some m ∧ m ≠ "") := by
  refine ⟨?_, ?_, ?_, ?_, ?_⟩
  · have h := researchCallsGo_le_length ((List.range (mr + 1)).map backend)
    simpa [researchCalls] using h
  · exact researchGo_sub_query_id sq.id mr _ none
  · rw [research_query, researchGo_success_iff]
    constructor
    · rintro ⟨o, ho, hok⟩
      obtain ⟨j, hj, rfl⟩ := List.mem_map.mp ho
      exact ⟨j, Nat.lt_succ_iff.mp (List.mem_range.mp hj), hok⟩
    · rintro ⟨i, hi, hok⟩
      exact ⟨backend i, List.mem_map_of_mem _ (List.mem_range.mpr (Nat.lt_succ_iff.mpr hi)),
        hok⟩
  · intro i t s hi hbefore heq
    obtain ⟨l₂, hdecomp⟩ := range_map_decomp backend i mr hi
    rw [research_query, hdecomp, heq]
    apply researchGo_first_ok
    intro o ho
    obtain ⟨j, hj, rfl⟩ := List.mem_map.mp ho
    exact hbefore j (List.mem_range.mp hj)
  · intro hall
    obtain ⟨e', he⟩ := researchGo_all_raises sq.id mr ((List.range (mr + 1)).map backend)
      none (by
        intro o ho
        obtain ⟨j, hj, rfl⟩ := List.mem_map.mp ho
        exact hall j (Nat.lt_succ_iff.mp (List.mem_range.mp hj)))
    rw [research_query, he]
    exact ⟨rfl, rfl, _, rfl, failure_message_ne_empty mr e'⟩

/-- C1 witness: with a backend that raises on every attempt and
`max_retries = 1`, `research_query` returns `success = false` with empty
`response_text`. -/
theorem research_query_retry_spec_witness :
    (research_query (fun _ => .raises "API Error") ⟨"sq-1", "q", "a"⟩ 1).success = false ∧
    (research_query (fun _ => .raises "API Error") ⟨"sq-1", "q", "a"⟩ 1).response_text
      = "" := by
  have h := research_query_retry_spec (fun _ => .raises "API Error") ⟨"sq-1", "q", "a"⟩ 1
  have h5 := h.2.2.2.2 (fun i _ => rfl)
  exact ⟨h5.1, h5.2.1⟩

/-- C1 counterexample: a backend attempt that returns normally with an
empty response text makes `research_query` return `success = true` with
EMPTY `response_text`, refuting the claim that a successful result always
has non-empty `response_text`. -/
theorem research_query_empty_success_counterexample :
    (research_query (fun _ => .ok (some "") []) ⟨"sq-1", "q", "a"⟩ 1).success = true ∧
    (research_query (fun _ => .ok (some "") []) ⟨"sq-1", "q", "a"⟩ 1).response_text
      = "" := by
  exact ⟨rfl, rfl⟩

/-! ### C2 -/

/-- C2 (amended): for every NON-EMPTY list of N sub-queries, `research_all`
returns exactly N results where the result at position i carries the
`sub_query_id` of the input at position i, and the progress callback is
invoked exactly N times with `current` taking every value 1..N in order
and `total = N` on every invocation.  (For the empty list `research_all`
raises `ValueError` out of the thread-pool constructor instead of
returning an empty result list.) -/
theorem research_all_spec (backends : Nat → Nat → AttemptOutcome)
    (sub_queries : List SubQuery) (h : sub_queries ≠ []) :
    ∃ results progress,
      research_all backends sub_queries = .ok (results, progress) ∧
      results.length = sub_queries.length ∧
      (∀ i (hi : i < sub_queries.length) (hi' : i < results.length),
        (results.get ⟨i, hi'⟩).sub_query_id = (sub_queries.get ⟨i, hi⟩).id) ∧
      progress = (List.range sub_queries.length).map
        (fun i => (i + 1, sub_queries.length)) := by
  have hne : sub_queries.length.min 5 ≠ 0 := by
    have hl : sub_queries.length ≠ 0 := fun hl => h (List.length_eq_zero.mp hl)
    simp [Nat.min_eq_zero_iff, hl]
  refine ⟨sub_queries.mapIdx (fun i sq => research_query (backends i) sq 1),
    (List.range sub_queries.length).map (fun i => (i + 1, sub_queries.length)),
    ?_, ?_, ?_, rfl⟩
  · simp only [research_all, hne, if_false]
  · exact List.length_mapIdx
  · intro i hi hi'
    have hg : (sub_queries.mapIdx (fun i sq => research_query (backends i) sq 1)).get ⟨i, hi'⟩
        = research_query (backends i) (sub_queries.get ⟨i, hi⟩) 1 := by
      simp [List.get_eq_getElem, List.getElem_mapIdx]
    rw [hg]
    exact researchGo_sub_query_id _ _ _ _

/-- C2 witness: `research_all` on a concrete two-element sub-query list
returns two results and both progress invocations. -/
theorem research_all_spec_witness :
    ∃ results progress,
      research_all (fun _ _ => .ok (some "text") [])
        [⟨"sq-a", "q1", "a1"⟩, ⟨"sq-b", "q2", "a2"⟩] = .ok (results, progress) ∧
      results.length = 2 ∧ progress = [(1, 2), (2, 2)] := by
  have h := research_all_spec (fun _ _ => .ok (some "text") [])
    [⟨"sq-a", "q1", "a1"⟩, ⟨"sq-b", "q2", "a2"⟩] (by decide)
  obtain ⟨r, p, h1, h2, _, h4⟩ := h
  exact ⟨r, p, h1, by simpa using h2, by simpa using h4⟩

/-- C2 counterexample: on the empty sub-query list the claim demands
"exactly 0 results", but `research_all` raises `ValueError` from
`ThreadPoolExecutor(max_workers=0)` instead of returning a list. -/
theorem research_all_empty_counterexample :
    research_all (fun _ _ => .raises "API Error") []
      = .error "max_workers must be greater than 0" := rfl

/-! ### Lemmas about source deduplication -/

theorem dedupAux_eq_spec_filter (l : List SourceInfo) :
    ∀ seen : List String, "" ∉ seen →
    dedupAux seen l = dedupByUrlSpec seen (l.filter (fun s => s.url ≠ "")) := by
  induction l with
  | nil => intro seen _; rfl
  | cons s rest ih =>
    intro seen hseen
    by_cases hurl : s.url = ""
    · have hcond : ¬(s.url ≠ "" ∧ s.url ∉ seen) := by simp [hurl]
      simp only [dedupAux, if_neg hcond, List.filter_cons]
      have : (decide (s.url ≠ "")) = false := by simp [hurl]
      rw [this]
      exact ih seen hseen
    · simp only [dedupAux, List.filter_cons]
      have : (decide (s.url ≠ "")) = true := by simp [hurl]
      rw [this]
      by_cases hmem : s.url ∈ seen
      · have hcond : ¬(s.url ≠ "" ∧ s.url ∉ seen) := by simp [hmem]
        simp only [if_neg hcond, dedupByUrlSpec]
        rw [if_neg (not_not_intro hmem)]
        exact ih seen hseen
      · have hcond : s.url ≠ "" ∧ s.url ∉ seen := ⟨hurl, hmem⟩
        simp only [if_pos hcond, dedupByUrlSpec, if_pos hmem]
        have hseen' : "" ∉ s.url :: seen := by
          intro hc
          rcases List.mem_cons.mp hc with hc | hc
          · exact hurl hc.symm
          · exact hseen hc
        rw [ih (s.url :: seen) hseen']

theorem dedupAux_subset (l : List SourceInfo) :
    ∀ seen, ∀ s ∈ dedupAux seen l, s ∈ l := by
  induction l with
  | nil => intro seen s hs; simp [dedupAux] at hs
  | cons x rest ih =>
    intro seen s hs
    simp only [dedupAux] at hs
    split at hs
    · rcases List.mem_cons.mp hs with rfl | hs
      · exact List.mem_cons_self _ _
      · exact List.mem_cons_of_mem _ (ih _ s hs)
    · exact List.mem_cons_of_mem _ (ih _ s hs)

theorem dedupAux_nodup (l : List SourceInfo) :
    ∀ seen, ((dedupAux seen l).map (fun s => s.url)).Nodup ∧
      ∀ s ∈ dedupAux seen l, s.url ∉ seen := by
  induction l with
  | nil => intro seen; simp [dedupAux]
  | cons x rest ih =>
    intro seen
    simp only [dedupAux]
    split
    · rename_i hcond
      obtain ⟨ihn, ihm⟩ := ih (x.url :: seen)
      refine ⟨?_, ?_⟩
      · simp only [List.map_cons, List.nodup_cons]
        refine ⟨?_, ihn⟩
        intro hc
        obtain ⟨s, hsmem, hseq⟩ := List.mem_map.mp hc
        have := ihm s hsmem
        exact this (hseq ▸ List.mem_cons_self _ _)
      · intro s hs
        rcases List.mem_cons.mp hs with rfl | hs
        · exact hcond.2
        · intro hc
          exact ihm s hs (List.mem_cons_of_mem _ hc)
    · obtain ⟨ihn, ihm⟩ := ih seen
      exact ⟨ihn, ihm⟩

/-! ### C3 -/

/-- C3 (amended): the sources of the `SynthesizedResponse` returned by
`synthesize` are exactly the union of the input results' sources with
EMPTY-URL SOURCES DISCARDED, deduplicated by exact URL in first-seen
order; in particular every output source occurs in some input result's
sources (no citation is invented) and no URL appears twice in the
output. -/
theorem synthesize_sources_spec (genOutput : SynthesisOutput) (q : String)
    (sqs : List SubQuery) (results : List ResearchResult) :
    (synthesize genOutput q sqs results).sources
      = dedupByUrlSpec []
          (((results.map ResearchResult.sources).flatten).filter (fun s => s.url ≠ "")) ∧
    (∀ s ∈ (synthesize genOutput q sqs results).sources,
      ∃ r ∈ results, s ∈ r.sources) ∧
    ((synthesize genOutput q sqs results).sources.map (fun s => s.url)).Nodup := by
  refine ⟨?_, ?_, ?_⟩
  · exact dedupAux_eq_spec_filter _ [] (List.not_mem_nil "")
  · intro s hs
    have hflat : s ∈ (results.map ResearchResult.sources).flatten :=
      dedupAux_subset _ [] s hs
    obtain ⟨l, hl, hsl⟩ := List.mem_flatten.mp hflat
    obtain ⟨r, hr, rfl⟩ := List.mem_map.mp hl
    exact ⟨r, hr, hsl⟩
  · exact (dedupAux_nodup _ []).1

/-- C3 witness: the deduplicated citation set at a concrete input. -/
theorem synthesize_sources_spec_witness :
    (synthesize ⟨"ans", []⟩ "q" []
      [⟨"m", "t", [⟨"T1", "https://x.y/a"⟩, ⟨"T2", "https://x.y/a"⟩], true, none⟩,
       ⟨"m2", "t2", [⟨"T3", "https://x.y/b"⟩], true, none⟩]).sources
      = [⟨"T1", "https://x.y/a"⟩, ⟨"T3", "https://x.y/b"⟩] := by
  have h := synthesize_sources_spec ⟨"ans", []⟩ "q" []
    [⟨"m", "t", [⟨"T1", "https://x.y/a"⟩, ⟨"T2", "https://x.y/a"⟩], true, none⟩,
     ⟨"m2", "t2", [⟨"T3", "https://x.y/b"⟩], true, none⟩]
  rw [h.1]
  rfl

/-- C3 counterexample: a source whose `url` is the empty string belongs to
the union of the input results' sources and is unique, yet the code drops
it (`if source.url and …`), so the output is NOT exactly the union
deduplicated by URL in first-seen order. -/
theorem deduplicate_sources_empty_url_counterexample :
    deduplicate_sources [⟨"m", "t", [⟨"Source", ""⟩], true, none⟩] = [] ∧
    specCitations [⟨"m", "t", [⟨"Source", ""⟩], true, none⟩] = [⟨"Source", ""⟩] :=
  ⟨rfl, rfl⟩

/-! ### C6 -/

/-- C6 (amended): `synthesize` imposes no constraint at all on section
headings: for every call, the sections of the returned
`SynthesizedResponse` are exactly the sections reported by the external
model's structured output (and the response text is the model's text,
with no follow-up questions), regardless of how many research results
contributed text; no minimum number of sections is enforced. -/
theorem synthesize_passthrough_spec (genOutput : SynthesisOutput) (q : String)
    (sqs : List SubQuery) (results : List ResearchResult) :
    (synthesize genOutput q sqs results).sections = genOutput.sections ∧
    (synthesize genOutput q sqs results).response_text = genOutput.response_text ∧
    (synthesize genOutput q sqs results).follow_up_questions = [] :=
  ⟨rfl, rfl, rfl⟩

/-- C6 counterexample: two distinct research results contribute text, yet
the returned response has ZERO section headings (the generator reported
none and the code — whose prompt even instructs "No section headings
needed" — forwards them unchecked), refuting the claim that at least one
section heading is present whenever at least two distinct results
contributed text. -/
theorem synthesize_sections_counterexample :
    contributingCount
      [⟨"sq-a", "text a", [], true, none⟩, ⟨"sq-b", "text b", [], true, none⟩] = 2 ∧
    (⟨"sq-a", "text a", [], true, none⟩ : ResearchResult)
      ≠ ⟨"sq-b", "text b", [], true, none⟩ ∧
    (synthesize ⟨"ans", []⟩ "q" [⟨"sq-a", "qa", "aa"⟩, ⟨"sq-b", "qb", "ab"⟩]
      [⟨"sq-a", "text a", [], true, none⟩, ⟨"sq-b", "text b", [], true, none⟩]).sections
      = [] := by
  refine ⟨rfl, ?_, rfl⟩
  decide

theorem string_append_left_cancel {s a b : String} (h : s ++ a = s ++ b) : a = b := by
  have hd := congrArg String.data h
  simp only [String.data_append] at hd
  exact String.ext (List.append_cancel_left hd)

/-! ### C4 -/

/-- C4 (amended): `decompose` returns a result only when the generator
yields between 2 and 5 items; outside that range schema validation raises
a ValidationError BEFORE the padding/truncation code, so no padding with
duplicates of the original question and no truncation ever happens.  On
success it returns one sub-query per generator item, in order, with
`query_text` and `aspect` copied verbatim from the generator (hence
possibly empty) and a freshly generated id `"sq-" ++ idGen i` never taken
from the generator (whose schema has no id field); the ids are pairwise
distinct when the fresh-id source is injective. -/
theorem decompose_spec (question : String) (idGen : Nat → String) (gen : SubQueryList)
    (hinj : Function.Injective idGen) :
    ((gen.sub_queries.length < 2 ∨ 5 < gen.sub_queries.length) →
      decompose question idGen gen = .error "ValidationError: sub_queries") ∧
    (2 ≤ gen.sub_queries.length → gen.sub_queries.length ≤ 5 →
      ∃ out, decompose question idGen gen = .ok out ∧
        out.length = gen.sub_queries.length ∧
        2 ≤ out.length ∧ out.length ≤ 5 ∧
        (∀ i (hi : i < out.length) (hi' : i < gen.sub_queries.length),
          (out.get ⟨i, hi⟩).id = "sq-" ++ idGen i ∧
          (out.get ⟨i, hi⟩).query_text = (gen.sub_queries.get ⟨i, hi'⟩).query_text ∧
          (out.get ⟨i, hi⟩).aspect = (gen.sub_queries.get ⟨i, hi'⟩).aspect) ∧
        (out.map SubQuery.id).Nodup) := by
  constructor
  · intro hrange
    simp only [decompose, if_pos hrange]
  · intro h2 h5
    have hrange : ¬(gen.sub_queries.length < 2 ∨ 5 < gen.sub_queries.length) := by omega
    have hlt : ¬gen.sub_queries.length < 2 := by omega
    have hgt : ¬5 < gen.sub_queries.length := by omega
    refine ⟨gen.sub_queries.mapIdx (fun i it =>
      { id := "sq-" ++ idGen i, query_text := it.query_text, aspect := it.aspect }),
      ?_, ?_, ?_, ?_, ?_, ?_⟩
    · simp only [decompose, if_neg hrange, if_neg hlt, if_neg hgt]
    · exact List.length_mapIdx
    · rw [List.length_mapIdx]; omega
    · rw [List.length_mapIdx]; omega
    · intro i hi hi'
      refine ⟨?_, ?_, ?_⟩ <;>
        simp [List.get_eq_getElem, List.getElem_mapIdx]
    · rw [List.nodup_iff_injective_get]
      intro a b hab
      have ha := a.isLt
      have hb := b.isLt
      simp only [List.get_eq_getElem, List.getElem_map] at hab
      rw [List.getElem_mapIdx, List.getElem_mapIdx] at hab
      have hid : "sq-" ++ idGen a.val = "sq-" ++ idGen b.val := hab
      have := hinj (string_append_left_cancel hid)
      exact Fin.ext (by simpa using this)

/-- C4 witness: a two-item generator output with an injective fresh-id
source yields two sub-queries. -/
theorem decompose_spec_witness :
    ∃ out, decompose "q" (fun i => String.mk (List.replicate i 'a'))
      ⟨[⟨"qa", "aa"⟩, ⟨"qb", "ab"⟩], "r"⟩ = .ok out ∧ out.length = 2 := by
  have hinj : Function.Injective (fun i => String.mk (List.replicate i 'a')) := by
    intro i j hij
    have hl := congrArg (fun s => s.data.length) hij
    simpa using hl
  have h := decompose_spec "q" (fun i => String.mk (List.replicate i 'a'))
    ⟨[⟨"qa", "aa"⟩, ⟨"qb", "ab"⟩], "r"⟩ hinj
  obtain ⟨out, h1, h2, _⟩ := h.2 (by decide) (by decide)
  exact ⟨out, h1, by simpa using h2⟩

/-- C4 counterexample: a generator output with a single item makes
`decompose` raise a ValidationError (the pydantic `min_length=2` bound on
`SubQueryList.sub_queries` fires inside `model_validate_json`, before the
padding code is reached) instead of returning a padded result. -/
theorem decompose_single_item_counterexample :
    decompose "q" (fun _ => "abcd1234") ⟨[⟨"only", "one"⟩], "r"⟩
      = .error "ValidationError: sub_queries" := rfl

/-! ### C5 -/

/-- C5 (confirmed): on a clarification reply, the handler removes the
chat's pending-clarification marker as its very first step — the
resulting marker map is the same for EVERY outcome of the subsequent
store lookup, so the clearing precedes any further processing; when the
loaded conversation exists, exactly one `"Q: …\nA: …"` record is appended
to `clarification_context`, the `pending_clarification` and
`pending_options` fields are cleared (and persisted as the first store
operation); the reply text is replaced by the k-th option's value exactly
when the trimmed reply is a bare integer `k` with
`1 ≤ k ≤ |pending_options|`, and is used literally otherwise. -/
theorem clarification_response_spec (pending : List (Int × String)) (chat_id : Int)
    (conversation_id : String) (response : String) (message_id : Int)
    (state : ConversationState) (sendResult : Option Int) :
    (∀ lookup,
      (handle_clarification_response pending chat_id conversation_id response
        message_id lookup sendResult).pending_after
        = pending.filter (fun p => p.1 != chat_id)) ∧
    (∃ st',
      (handle_clarification_response pending chat_id conversation_id response
        message_id (some state) sendResult).next = some st' ∧
      st'.clarification_context = state.clarification_context
        ++ ["Q: " ++ pyOptStr state.pending_clarification ++ "\nA: "
            ++ actual_response_of state response] ∧
      st'.pending_clarification = none ∧
      st'.pending_options = [] ∧
      (handle_clarification_response pending chat_id conversation_id response
        message_id (some state) sendResult).ops.head?
        = some (.persistClear conversation_id st'.clarification_context)) ∧
    (∀ k, pyBareInt (pyStrip response) = some k →
      ∀ (h1 : 1 ≤ k) (h2 : k ≤ state.pending_options.length),
        actual_response_of state response
          = state.pending_options.get ⟨k - 1, by omega⟩) ∧
    (pyBareInt (pyStrip response) = none → actual_response_of state response = response) ∧
    (∀ k, pyBareInt (pyStrip response) = some k →
      (k = 0 ∨ state.pending_options.length < k) →
      actual_response_of state response = response) := by
  refine ⟨?_, ?_, ?_, ?_, ?_⟩
  · intro lookup
    cases lookup <;> cases sendResult <;> rfl
  · cases sendResult <;>
      exact ⟨_, rfl, rfl, rfl, rfl, rfl⟩
  · intro k hk h1 h2
    have hne : state.pending_options ≠ [] := by
      intro hnil
      rw [hnil] at h2
      simp at h2
      omega
    have hcond : state.pending_options ≠ [] ∧ 1 ≤ k ∧ k ≤ state.pending_options.length :=
      ⟨hne, h1, h2⟩
    simp only [actual_response_of, hk, if_pos hcond]
    exact List.getD_eq_getElem state.pending_options response (by omega)
  · intro hk
    simp [actual_response_of, hk]
  · intro k hk hout
    have hcond : ¬(state.pending_options ≠ [] ∧ 1 ≤ k ∧ k ≤ state.pending_options.length) := by
      rintro ⟨-, h1, h2⟩
      omega
    simp only [actual_response_of, hk, if_neg hcond]

/-- C5 witness: a reply `" 1 "` to a conversation with pending options
selects the first option's value. -/
theorem clarification_response_spec_witness :
    actual_response_of
      { id := "conv-1", user_id := 9, chat_id := 5, message_id := 7,
        status_message_id := none, original_question := "Tell me about Mercury",
        clarification_context := [], pending_clarification := some "Which Mercury?",
        pending_options := ["Mercury (planet)", "Mercury (element)"],
        stage := .AWAITING_CLARIFICATION, sub_queries := [], research_results := [],
        final_response := none, created_at := ⟨2024, 1, 1, 0, 0, 0, 0⟩,
        completed_at := none, error_message := none }
      " 1 " = "Mercury (planet)" := by
  have h := clarification_response_spec [] 5 "conv-1" " 1 " 7
    { id := "conv-1", user_id := 9, chat_id := 5, message_id := 7,
      status_message_id := none, original_question := "Tell me about Mercury",
      clarification_context := [], pending_clarification := some "Which Mercury?",
      pending_options := ["Mercury (planet)", "Mercury (element)"],
      stage := .AWAITING_CLARIFICATION, sub_queries := [], research_results := [],
      final_response := none, created_at := ⟨2024, 1, 1, 0, 0, 0, 0⟩,
      completed_at := none, error_message := none } none
  have hsub := h.2.2.1 1 (by decide) (by omega) (by decide)
  rw [hsub]
  rfl

/-! ### C10 -/

/-- C10 (confirmed): when a message arrives for a chat with a pending
clarification but the store lookup returns no document, the handler
clears the pending marker and returns immediately: no operation is issued
against the store or the transport (`ops = []`) and nothing is handed to
the clarification/research continuation (`next = none`) — the reply is
silently consumed and the conversation is not resumed. -/
theorem clarification_missing_conversation_spec (pending : List (Int × String))
    (chat_id : Int) (conversation_id : String) (response : String) (message_id : Int)
    (sendResult : Option Int) :
    (handle_clarification_response pending chat_id conversation_id response message_id
        none sendResult).pending_after = pending.filter (fun p => p.1 != chat_id) ∧
    (handle_clarification_response pending chat_id conversation_id response message_id
        none sendResult).ops = [] ∧
    (handle_clarification_response pending chat_id conversation_id response message_id
        none sendResult).next = none := by
  exact ⟨rfl, rfl, rfl⟩

/-! ### C7 -/

theorem sourcesText_ne_empty (s : List SourceInfo) : sourcesText s ≠ "" := by
  intro h
  have hlen := congrArg String.length h
  simp only [sourcesText, String.length_append] at hlen
  have h1 : 0 < ("މައުލޫމާތު: " : String).length := by decide
  have h2 : ("" : String).length = 0 := rfl
  omega

/-- C7 (amended): delivery does NOT split long final answers.
`_send_final_response` passes the full response text in a single edit of
the status message (or a single fresh send), regardless of length: the
first message text is always the whole `response_text`, every message it
issues carries either the whole `response_text` or the separate citations
line, and no message it sends is marked as a reply to anything.  (The
line-boundary splitting helper `_split_message` exists but has no caller.) -/
theorem send_final_response_unsplit_spec (hasDeleteTask editOk : Bool)
    (newMsgId srcMsgId chat_id : Int) (status_message_id : Option Int)
    (response : SynthesizedResponse) :
    (textsSent (send_final_response hasDeleteTask editOk newMsgId srcMsgId chat_id
        status_message_id response)).head? = some response.response_text ∧
    (∀ t ∈ textsSent (send_final_response hasDeleteTask editOk newMsgId srcMsgId chat_id
        status_message_id response),
      t = response.response_text ∨ t = sourcesText response.sources) ∧
    (∀ c t r p, SendOp.sendMessage c t r p ∈ send_final_response hasDeleteTask editOk
        newMsgId srcMsgId chat_id status_message_id response → r = none) := by
  by_cases hs : response.sources = [] <;>
    cases status_message_id <;>
    cases editOk <;>
    cases hasDeleteTask <;>
    simp [send_final_response, replace_with_response, send_with_auto_delete,
      schedule_deletion, textsSent, sourcesText_ne_empty, hs,
      List.filterMap_cons, List.filterMap_append] <;>
    intro c t r p h <;>
    tauto

/-- C7 witness: the delivery of a concrete short answer starts with the
whole answer text. -/
theorem send_final_response_unsplit_spec_witness :
    (textsSent (send_final_response true true 9 10 5 (some 3)
      ⟨"hello", [], [], []⟩)).head? = some "hello" := by
  have h := send_final_response_unsplit_spec true true 9 10 5 (some 3)
    ⟨"hello", [], [], []⟩
  exact h.1

/-- C7 counterexample: a final answer of 4097 characters (beyond the 4096
transport limit) is delivered as ONE edit operation carrying the whole
text — it is not split into chunks within the limit, and nothing is sent
as a reply. -/
theorem send_final_response_long_text_counterexample :
    (String.mk (List.replicate 4097 'a')).length = 4097 ∧
    send_final_response true true 9 10 5 (some 3)
        ⟨String.mk (List.replicate 4097 'a'), [], [], []⟩
      = [.editMessage 5 3 (String.mk (List.replicate 4097 'a')) none] := by
  constructor
  · have h : (String.mk (List.replicate 4097 'a')).length
        = (List.replicate 4097 'a').length := rfl
    rw [h, List.length_replicate]
  · rfl

/-! ### C8 -/

/-- C8 (amended): PROVIDED the manager was constructed with a scheduler
(a huey instance), every message it sends — the initial status, the
fallback replacement after a failed edit, and an auto-delete send —
schedules exactly one deletion task, at a delay of 86400 seconds, bound
to that message's id; editing an existing message in place
(`update_status`, or `replace_with_response` when the edit succeeds)
schedules no deletion task, so the retention timer is not renewed on
edits.  Without a scheduler nothing is ever scheduled. -/
theorem status_manager_schedule_spec (chat_id reply_to newMsgId message_id : Int)
    (text response : String) (reply_opt : Option Int) (pm pm' : Option String)
    (stage : ProcessingStage) (progress : String) :
    deletionsOf (send_initial_status true chat_id reply_to newMsgId).1
      = [(chat_id, newMsgId, 86400)] ∧
    deletionsOf (send_with_auto_delete true chat_id text reply_opt pm newMsgId).1
      = [(chat_id, newMsgId, 86400)] ∧
    deletionsOf (replace_with_response true true newMsgId chat_id message_id
      response pm') = [] ∧
    deletionsOf (replace_with_response true false newMsgId chat_id message_id
      response pm') = [(chat_id, newMsgId, 86400)] ∧
    deletionsOf (update_status chat_id message_id stage progress) = [] :=
  ⟨rfl, rfl, rfl, rfl, rfl⟩

/-- C8 counterexample: a `StatusManager` constructed without a scheduler
(`huey=None`, as the constructor explicitly allows and the repository's
own tests exercise) sends the initial status message but schedules ZERO
deletion tasks, refuting the unconditional "exactly one deletion task per
sent message". -/
theorem status_manager_no_scheduler_counterexample :
    ((send_initial_status false 1 2 3).1).length = 1 ∧
    deletionsOf (send_initial_status false 1 2 3).1 = [] :=
  ⟨rfl, rfl⟩

/-! ### C9: lemmas about the ISO-8601 round-trip -/

theorem digit_facts : ∀ d < 10,
    (Nat.digitChar d).isDigit = true ∧ (Nat.digitChar d).toNat - 48 = d := by decide

theorem padNat_length (w : Nat) : ∀ n, (padNat w n).length = w := by
  induction w with
  | zero => intro n; rfl
  | succ w ih =>
    intro n
    simp [padNat, ih]

theorem foldl_padNat (w : Nat) : ∀ n acc, n < 10 ^ w →
    List.foldl
      (fun acc c => acc.bind (fun n =>
        if c.isDigit then some (n * 10 + (c.toNat - 48)) else none))
      (some acc) (padNat w n) = some (acc * 10 ^ w + n) := by
  induction w with
  | zero =>
    intro n acc h
    interval_cases n
    simp [padNat]
  | succ w ih =>
    intro n acc h
    rw [padNat, List.foldl_append]
    have hdiv : n / 10 < 10 ^ w := by
      rw [pow_succ] at h
      omega
    rw [ih (n / 10) acc hdiv]
    have hd : n % 10 < 10 := Nat.mod_lt _ (by norm_num)
    obtain ⟨hdig, hval⟩ := digit_facts (n % 10) hd
    simp only [List.foldl_cons, List.foldl_nil, Option.bind, hdig, if_true, hval]
    congr 1
    have hstep : (acc * 10 ^ w + n / 10) * 10 + n % 10
        = acc * (10 ^ w * 10) + (n / 10 * 10 + n % 10) := by ring
    have hnm : n / 10 * 10 + n % 10 = n := by omega
    rw [hstep, hnm, ← pow_succ]

theorem readDigits_padNat (w n : Nat) (h : n < 10 ^ w) :
    readDigits (padNat w n) = some n := by
  have := foldl_padNat w n 0 h
  simpa [readDigits] using this

theorem exists_two {α} {l : List α} (h : l.length = 2) :
    ∃ a b, l = [a, b] := by
  rcases l with _ | ⟨a, l⟩
  · simp at h
  rcases l with _ | ⟨b, l⟩
  · simp at h
  rcases l with _ | ⟨c, l⟩
  · exact ⟨a, b, rfl⟩
  · simp at h

theorem exists_four {α} {l : List α} (h : l.length = 4) :
    ∃ a b c d, l = [a, b, c, d] := by
  rcases l with _ | ⟨a, l⟩
  · simp at h
  rcases l with _ | ⟨b, l⟩
  · simp at h
  obtain ⟨c, d, rfl⟩ := exists_two (by simpa using h)
  exact ⟨a, b, c, d, rfl⟩

theorem parseIsoChars_pattern (ly lmo ld lh lmi ls rest : List Char)
    (hy : ly.length = 4) (hmo : lmo.length = 2) (hd : ld.length = 2)
    (hh : lh.length = 2) (hmi : lmi.length = 2) (hs : ls.length = 2) :
    parseIsoChars (ly ++ '-' :: (lmo ++ '-' :: (ld ++ 'T' :: (lh ++ ':'
        :: (lmi ++ ':' :: (ls ++ rest))))))
      = parseIsoFields ly lmo ld lh lmi ls rest := by
  obtain ⟨y1, y2, y3, y4, rfl⟩ := exists_four hy
  obtain ⟨a1, a2, rfl⟩ := exists_two hmo
  obtain ⟨b1, b2, rfl⟩ := exists_two hd
  obtain ⟨c1, c2, rfl⟩ := exists_two hh
  obtain ⟨d1, d2, rfl⟩ := exists_two hmi
  obtain ⟨e1, e2, rfl⟩ := exists_two hs
  rfl

theorem stageOfString_stageValue (st : ProcessingStage) :
    stageOfString (stageValue st) = some st := by
  cases st <;> rfl

theorem parseIso_isoString (dt : DateTime) (hb : DateTimeBounds dt) :
    parseIso (isoString dt) = some dt := by
  obtain ⟨y, mo, d, h, mi, s, us⟩ := dt
  obtain ⟨h1, h2, h3, h4, h5, h6, h7⟩ := hb
  have e4 : (10 : Nat) ^ 4 = 10000 := by norm_num
  have e2 : (10 : Nat) ^ 2 = 100 := by norm_num
  have e6 : (10 : Nat) ^ 6 = 1000000 := by norm_num
  have hy := readDigits_padNat 4 y (by rw [e4]; exact h1)
  have hmo := readDigits_padNat 2 mo (by rw [e2]; exact h2)
  have hd := readDigits_padNat 2 d (by rw [e2]; exact h3)
  have hh := readDigits_padNat 2 h (by rw [e2]; exact h4)
  have hmi := readDigits_padNat 2 mi (by rw [e2]; exact h5)
  have hs := readDigits_padNat 2 s (by rw [e2]; exact h6)
  have hshape : parseIso (isoString ⟨y, mo, d, h, mi, s, us⟩)
      = parseIsoChars (padNat 4 y ++ '-' :: (padNat 2 mo ++ '-'
          :: (padNat 2 d ++ 'T' :: (padNat 2 h ++ ':'
          :: (padNat 2 mi ++ ':' :: (padNat 2 s
          ++ (if us = 0 then [] else '.' :: padNat 6 us))))))) := by
    simp [parseIso, isoString, List.append_assoc]
  rw [hshape, parseIsoChars_pattern _ _ _ _ _ _ _ (padNat_length 4 y)
    (padNat_length 2 mo) (padNat_length 2 d) (padNat_length 2 h)
    (padNat_length 2 mi) (padNat_length 2 s)]
  by_cases hus : us = 0
  · subst hus
    simp [parseIsoFields, hy, hmo, hd, hh, hmi, hs]
  · rw [if_neg hus]
    have hlen : (padNat 6 us).length = 6 := padNat_length 6 us
    have hus6 := readDigits_padNat 6 us (by rw [e6]; exact h7)
    simp [parseIsoFields, hy, hmo, hd, hh, hmi, hs, hlen, hus6]

theorem model_validate_dump (state : ConversationState)
    (hc : DateTimeBounds state.created_at)
    (hco : ∀ dtc, state.completed_at = some dtc → DateTimeBounds dtc) :
    model_validate (model_dump_json state) = some state := by
  obtain ⟨cid, uid, chid, mid, smid, oq, cc, pc, po, stg, sqs, rrs, fr, ca, co, em⟩ := state
  cases co with
  | none =>
    simp [model_dump_json, model_validate, stageOfString_stageValue,
      parseIso_isoString ca hc]
  | some dtc =>
    have hb : DateTimeBounds dtc := hco dtc rfl
    simp [model_dump_json, model_validate, stageOfString_stageValue,
      parseIso_isoString ca hc, parseIso_isoString dtc hb]

/-! ### C9 -/

/-- C9 (confirmed): creating a `ConversationState` in the store (json-mode
dump, then insert) and retrieving it by id (find, then re-validate)
yields a state equal to the original in every field — enum stage,
datetime fields (which Python's `datetime` type keeps within the digit
widths assumed here) and nested sub-query / research-result /
final-response values included — provided no document with the same id
was already stored (ids are uuid-generated and unique). -/
theorem conversation_roundtrip_spec (store : List ConversationDoc)
    (state : ConversationState)
    (hfresh : ∀ dc ∈ store, dc.id ≠ state.id)
    (hc : DateTimeBounds state.created_at)
    (hco : ∀ dtc, state.completed_at = some dtc → DateTimeBounds dtc) :
    get_conversation (create_conversation store state).1 state.id = .ok (some state) := by
  have hfind : (store ++ [model_dump_json state]).find? (fun dc => dc.id == state.id)
      = some (model_dump_json state) := by
    rw [List.find?_append]
    have h1 : store.find? (fun dc => dc.id == state.id) = none := by
      rw [List.find?_eq_none]
      intro dc hdc
      simpa using hfresh dc hdc
    rw [h1]
    simp [List.find?, model_dump_json]
  simp only [get_conversation, create_conversation, hfind]
  rw [model_validate_dump state hc hco]

/-- C9 witness: the round-trip at a concrete fully-populated state. -/
theorem conversation_roundtrip_spec_witness :
    get_conversation
      (create_conversation []
        { id := "conv-w", user_id := 1, chat_id := 2, message_id := 3,
          status_message_id := some 44, original_question := "q",
          clarification_context := ["Q: x\nA: y"], pending_clarification := none,
          pending_options := [], stage := .COMPLETE,
          sub_queries := [⟨"sq-1", "qt", "as"⟩],
          research_results := [⟨"sq-1", "rt", [⟨"T", "https://x.y/a"⟩], true, none⟩],
          final_response := some ⟨"ans", [⟨"T", "https://x.y/a"⟩], ["S"], []⟩,
          created_at := ⟨2024, 6, 15, 12, 30, 45, 123456⟩,
          completed_at := some ⟨2024, 6, 15, 12, 31, 0, 0⟩,
          error_message := none }).1
      "conv-w"
      = .ok (some
        { id := "conv-w", user_id := 1, chat_id := 2, message_id := 3,
          status_message_id := some 44, original_question := "q",
          clarification_context := ["Q: x\nA: y"], pending_clarification := none,
          pending_options := [], stage := .COMPLETE,
          sub_queries := [⟨"sq-1", "qt", "as"⟩],
          research_results := [⟨"sq-1", "rt", [⟨"T", "https://x.y/a"⟩], true, none⟩],
          final_response := some ⟨"ans", [⟨"T", "https://x.y/a"⟩], ["S"], []⟩,
          created_at := ⟨2024, 6, 15, 12, 30, 45, 123456⟩,
          completed_at := some ⟨2024, 6, 15, 12, 31, 0, 0⟩,
          error_message := none }) := by
  apply conversation_roundtrip_spec
  · intro dc hdc
    simp at hdc
  · decide
  · intro dtc hdtc
    have h := Option.some.inj hdtc
    rw [← h]
    decide

end Engeybot
